import Mathlib

/-!
Verification development for the search backend of a flashcard collection
(`rslib/src/backend/search.rs`): the structured-specification-to-expression-tree
builder, the replace-operation normalization, find-and-replace pattern
normalization, and sort-specification resolution, embedded shallowly in Lean.
-/

set_option autoImplicit false

namespace AnkiSearch

/-- Error type: `AnkiError`, restricted to the variants reachable from this file.
`invalidInput` mirrors `AnkiError::invalid_input`; `searchError` stands for
errors surfaced from the external free-text parser. -/
inductive AnkiError where
  | invalidInput (info : String)
  | searchError (info : String)
deriving DecidableEq, Repr

/-- `RatingKind` from `crate::search`. -/
inductive RatingKind where
  | answerButton (n : Nat)
  | anyAnswerButton
  | manualReschedule
deriving DecidableEq, Repr

/-- `StateKind` from `crate::search`. -/
inductive StateKind where
  | new
  | learning
  | review
  | due
  | suspended
  | buried
deriving DecidableEq, Repr

/-- `PropertyKind`, restricted to the `Due(i32)` variant used in this file. -/
inductive PropertyKind where
  | due (days : Int)
deriving DecidableEq, Repr

/-- `TemplateKind`, restricted to the `Ordinal(u16)` variant used in this file.
The `u16` payload is a `Nat`; the builder applies the `as u16` truncation
explicitly as `% 65536`. -/
inductive TemplateKind where
  | ordinal (n : Nat)
deriving DecidableEq, Repr

/-- `SearchNode` from `crate::search`: the leaf predicate catalog. -/
inductive SearchNode where
  | tag (s : String)
  | deck (s : String)
  | noteType (s : String)
  | cardTemplate (k : TemplateKind)
  | noteIDs (s : String)
  | duplicates (noteTypeId : Int) (text : String)
  | singleField (field : String) (text : String) (isRe : Bool)
  | rated (days : Nat) (ease : RatingKind)
  | addedInDays (n : Nat)
  | property (operator : String) (kind : PropertyKind)
  | editedInDays (n : Nat)
  | state (k : StateKind)
  | flag (n : Nat)
  | wholeCollection
deriving DecidableEq, Repr

/-- `Node` from `crate::search`: the expression tree. `and`/`or` are the
operator-token markers that appear inside a `group` sequence. -/
inductive Node where
  | and
  | or
  | not (n : Node)
  | group (nodes : List Node)
  | search (s : SearchNode)
deriving Repr

/-- Modelled from the spec: `Node::negated` is defined outside this file;
the spec states that a Negated specification wraps the built child in
Negation with no simplification, even when the child is itself a Negation. -/
def Node.negated (n : Node) : Node :=
  Node.not n

/-- Modelled from the spec: the external helper `escape_anki_wildcards`
(`crate::text`) is a pure text-to-text function escaping wildcard
characters; wildcard characters are escaped by prefixing a backslash. -/
def escape_anki_wildcards (s : String) : String :=
  String.mk (s.data.flatMap fun c => if c = '*' ∨ c = '_' then ['\\', c] else [c])

/-- `pb::search_node::Rating`. -/
inductive PBRating where
  | again
  | hard
  | good
  | easy
  | any
  | byReschedule
deriving DecidableEq, Repr

/-- `pb::search_node::CardState`. -/
inductive PBCardState where
  | new
  | learn
  | review
  | due
  | suspended
  | buried
deriving DecidableEq, Repr

/-- `pb::search_node::Flag`. -/
inductive PBFlag where
  | none
  | any
  | red
  | orange
  | green
  | blue
deriving DecidableEq, Repr

/-- `pb::search_node::group::Joiner`. -/
inductive PBJoiner where
  | and
  | or
deriving DecidableEq, Repr

mutual
/-- `pb::SearchNode`: a protobuf message holding an optional filter. -/
inductive PBSearchNode where
  | mk (filter : Option PBFilter)
deriving Repr

/-- `pb::search_node::Filter`: one variant per structured filter kind. -/
inductive PBFilter where
  | tag (s : String)
  | deck (s : String)
  | note (s : String)
  | template (u : Nat)
  | nid (n : Int)
  | nids (ids : List Int)
  | dupe (notetypeId : Int) (firstField : String)
  | fieldName (s : String)
  | rated (days : Nat) (rating : PBRating)
  | addedInDays (u : Nat)
  | dueInDays (i : Int)
  | dueOnDay (i : Int)
  | editedInDays (u : Nat)
  | cardState (s : PBCardState)
  | flag (f : PBFlag)
  | negated (t : PBSearchNode)
  | group (joiner : PBJoiner) (nodes : List PBSearchNode)
  | parsableText (s : String)
deriving Repr
end

/-- `impl From<pb::search_node::Rating> for RatingKind`. -/
def ratingKindFromPB : PBRating → RatingKind
  | .again => .answerButton 1
  | .hard => .answerButton 2
  | .good => .answerButton 3
  | .easy => .answerButton 4
  | .any => .anyAnswerButton
  | .byReschedule => .manualReschedule

/-- `impl From<pb::search_node::CardState> for StateKind`. -/
def stateKindFromPB : PBCardState → StateKind
  | .new => .new
  | .learn => .learning
  | .review => .review
  | .due => .due
  | .suspended => .suspended
  | .buried => .buried

/-- `pb::search_node::IdList::into_id_string`: comma-joined decimal ids. -/
def intoIdString (ids : List Int) : String :=
  String.intercalate "," (ids.map toString)

/-- The joiner-to-operator-token mapping inside the 2+ arm of the group case:
`Joiner::And => Node::And, Joiner::Or => Node::Or`. -/
def joinerNode : PBJoiner → Node
  | .and => Node.and
  | .or => Node.or

mutual
/-- `impl TryFrom<pb::SearchNode> for Node`, parameterized by the external
free-text parser `parse_search` (delegated to for `Filter::ParsableText`). -/
def tryFromNode (parse : String → Except AnkiError (List Node)) :
    PBSearchNode → Except AnkiError Node
  | .mk Option.none => .ok (.search .wholeCollection)
  | .mk (Option.some filter) =>
    match filter with
    | .tag s => .ok (.search (.tag (escape_anki_wildcards s)))
    | .deck s =>
      .ok (.search (.deck (if s = "*" then s else escape_anki_wildcards s)))
    | .note s => .ok (.search (.noteType (escape_anki_wildcards s)))
    | .template u => .ok (.search (.cardTemplate (.ordinal (u % 65536))))
    | .nid n => .ok (.search (.noteIDs (toString n)))
    | .nids ids => .ok (.search (.noteIDs (intoIdString ids)))
    | .dupe ntid ff => .ok (.search (.duplicates ntid ff))
    | .fieldName s =>
      .ok (.search (.singleField (escape_anki_wildcards s) "*" false))
    | .rated days rating => .ok (.search (.rated days (ratingKindFromPB rating)))
    | .addedInDays u => .ok (.search (.addedInDays u))
    | .dueInDays i => .ok (.search (.property "<=" (.due i)))
    | .dueOnDay i => .ok (.search (.property "=" (.due i)))
    | .editedInDays u => .ok (.search (.editedInDays u))
    | .cardState st => .ok (.search (.state (stateKindFromPB st)))
    | .flag f =>
      match f with
      | .none => .ok (.search (.flag 0))
      | .any => .ok (.not (.search (.flag 0)))
      | .red => .ok (.search (.flag 1))
      | .orange => .ok (.search (.flag 2))
      | .green => .ok (.search (.flag 3))
      | .blue => .ok (.search (.flag 4))
    | .negated t =>
      match tryFromNode parse t with
      | .ok n => .ok n.negated
      | .error e => .error e
    | .group joiner nodes =>
      match nodes with
      | [] => .error (.invalidInput "empty group")
      | [n] => tryFromNode parse n
      | a :: b :: rest =>
        match tryFromList parse (a :: b :: rest) with
        | .ok parsed => .ok (Node.group (parsed.intersperse (joinerNode joiner)))
        | .error e => .error e
    | .parsableText text =>
      match parse text with
      | .ok [n] => .ok n
      | .ok nodes => .ok (Node.group nodes)
      | .error e => .error e
termination_by n => sizeOf n
decreasing_by all_goals (simp_wf; omega)

/-- The `collect::<Result<_>>()` over `group.nodes.into_iter().map(TryFrom::try_from)`:
builds each child in order, stopping at the first error. -/
def tryFromList (parse : String → Except AnkiError (List Node)) :
    List PBSearchNode → Except AnkiError (List Node)
  | [] => .ok []
  | n :: rest =>
    match tryFromNode parse n with
    | .ok hd =>
      match tryFromList parse rest with
      | .ok tl => .ok (hd :: tl)
      | .error e => .error e
    | .error e => .error e
termination_by l => sizeOf l
decreasing_by all_goals (simp_wf <;> omega)
end

/-- `pb::SearchNode::default()`: a message with no filter set. -/
def PBSearchNode.default : PBSearchNode :=
  .mk Option.none

/-- Whether a node is a `group`; used to state the replace-normalization
dichotomy. -/
def Node.isGroup : Node → Bool
  | .group _ => true
  | _ => false

/-- The normalization step of the `replace_search_node` service handler
(`fn replace_search_node` in this file): `input.existing_node.unwrap_or_default()`
is built, and if the result is a single `Group` node it is unwrapped to its
inner sequence, otherwise treated as a one-element sequence. The scan and
re-serialization are delegated to the external `crate::search::replace_search_node`. -/
def replaceSearchNodeExisting (parse : String → Except AnkiError (List Node))
    (existingNode : Option PBSearchNode) : Except AnkiError (List Node) :=
  match tryFromNode parse (existingNode.getD PBSearchNode.default) with
  | .ok (Node.group nodes) => .ok nodes
  | .ok node => .ok [node]
  | .error e => .error e

/-- The pattern normalization in the `find_and_replace` service handler,
parameterized by the external `regex::escape`: a literal (non-regex) pattern
is regex-escaped, and when `match_case` is false the inline case-insensitive
marker is prefixed onto the (possibly escaped) pattern. -/
def findAndReplacePattern (regexEscape : String → String)
    (isRegex matchCase : Bool) (searchText : String) : String :=
  let s := if isRegex then searchText else regexEscape searchText
  if matchCase then s else "(?i)" ++ s

/-- `pb::sort_order::builtin::Kind` (`SortKindProto`). -/
inductive SortKindProto where
  | noteCreation
  | noteMod
  | noteField
  | noteTags
  | noteType
  | cardMod
  | cardReps
  | cardDue
  | cardEase
  | cardLapses
  | cardInterval
  | cardDeck
  | cardTemplate
deriving DecidableEq, Repr

/-- `config::SortKind`. -/
inductive SortKind where
  | noteCreation
  | noteMod
  | noteField
  | noteTags
  | noteType
  | cardMod
  | cardReps
  | cardDue
  | cardEase
  | cardLapses
  | cardInterval
  | cardDeck
  | cardTemplate
deriving DecidableEq, Repr

/-- `impl From<SortKindProto> for SortKind`. -/
def sortKindFromProto : SortKindProto → SortKind
  | .noteCreation => .noteCreation
  | .noteMod => .noteMod
  | .noteField => .noteField
  | .noteTags => .noteTags
  | .noteType => .noteType
  | .cardMod => .cardMod
  | .cardReps => .cardReps
  | .cardDue => .cardDue
  | .cardEase => .cardEase
  | .cardLapses => .cardLapses
  | .cardInterval => .cardInterval
  | .cardDeck => .cardDeck
  | .cardTemplate => .cardTemplate

/-- `pb::sort_order::Value` (`SortOrderProto`); the `Empty` payloads of the
`None` and `FromConfig` variants carry no information and are dropped. -/
inductive SortOrderProto where
  | none
  | custom (s : String)
  | fromConfig
  | builtin (kind : SortKindProto) (reverse : Bool)
deriving DecidableEq, Repr

/-- `SortMode` from `crate::search`. -/
inductive SortMode where
  | noOrder
  | fromConfig
  | custom (s : String)
  | builtin (kind : SortKind) (reverse : Bool)
deriving DecidableEq, Repr

/-- `impl From<Option<SortOrderProto>> for SortMode`:
`order.unwrap_or(V::FromConfig(pb::Empty))` then a table lookup. -/
def sortModeFromProto (order : Option SortOrderProto) : SortMode :=
  match order.getD SortOrderProto.fromConfig with
  | SortOrderProto.none => SortMode.noOrder
  | SortOrderProto.custom s => SortMode.custom s
  | SortOrderProto.fromConfig => SortMode.fromConfig
  | SortOrderProto.builtin k r => SortMode.builtin (sortKindFromProto k) r

/-- A parser stub standing for the external free-text parser; used only to
instantiate theorems at concrete inputs that contain no free-text filter. -/
def noParse : String → Except AnkiError (List Node) :=
  fun _ => .error (.searchError "external parse")

/-- The full enumeration of `SortKindProto`, for stating that the kind table
is one-to-one. -/
def allSortKindProto : List SortKindProto :=
  [.noteCreation, .noteMod, .noteField, .noteTags, .noteType, .cardMod,
   .cardReps, .cardDue, .cardEase, .cardLapses, .cardInterval, .cardDeck,
   .cardTemplate]

theorem length_intersperse {α : Type} (sep : α) :
    ∀ l : List α, (l.intersperse sep).length = 2 * l.length - 1
  | [] => rfl
  | [_] => rfl
  | a :: b :: t => by
    have ih := length_intersperse sep (b :: t)
    rw [List.intersperse_cons_cons]
    simp only [List.length_cons] at ih ⊢
    omega

theorem getElem?_intersperse_even {α : Type} (sep : α) :
    ∀ (l : List α) (i : Nat), i < l.length → (l.intersperse sep)[2 * i]? = l[i]?
  | [], _, h => by simp at h
  | [_], 0, _ => rfl
  | [_], i + 1, h => by simp at h
  | _ :: _ :: _, 0, _ => rfl
  | a :: b :: t, i + 1, h => by
    have ih := getElem?_intersperse_even sep (b :: t) i (by simpa using h)
    rw [List.intersperse_cons_cons]
    have h2 : 2 * (i + 1) = 2 * i + 1 + 1 := by omega
    rw [h2, List.getElem?_cons_succ, List.getElem?_cons_succ]
    simpa using ih

theorem getElem?_intersperse_odd {α : Type} (sep : α) :
    ∀ (l : List α) (i : Nat), i + 1 < l.length → (l.intersperse sep)[2 * i + 1]? = some sep
  | [], _, h => by simp at h
  | [_], _, h => by simp at h
  | _ :: _ :: _, 0, _ => by rw [List.intersperse_cons_cons]; norm_num
  | a :: b :: t, i + 1, h => by
    have ih := getElem?_intersperse_odd sep (b :: t) i (by simpa using h)
    rw [List.intersperse_cons_cons]
    have h2 : 2 * (i + 1) + 1 = 2 * i + 1 + 1 + 1 := by omega
    rw [h2, List.getElem?_cons_succ, List.getElem?_cons_succ]
    exact ih

theorem tryFromList_length (parse : String → Except AnkiError (List Node)) :
    ∀ (ns : List PBSearchNode) (ts : List Node),
      tryFromList parse ns = .ok ts → ts.length = ns.length := by
  intro ns
  induction ns with
  | nil =>
    intro ts h
    simp only [tryFromList] at h
    cases h
    rfl
  | cons n rest ih =>
    intro ts h
    simp only [tryFromList] at h
    cases hn : tryFromNode parse n with
    | error e => rw [hn] at h; cases h
    | ok hd =>
      rw [hn] at h
      cases hr : tryFromList parse rest with
      | error e => rw [hr] at h; cases h
      | ok tl =>
        rw [hr] at h
        cases h
        simp [ih tl hr]

/-- Claim C1: building a Group specification with zero child specifications
fails with an InvalidInput error regardless of the declared joiner, and no
tree (not even a partial one) is returned: the result is not `ok`. -/
theorem c1_empty_group_fails (parse : String → Except AnkiError (List Node))
    (j : PBJoiner) :
    tryFromNode parse (.mk (some (.group j []))) =
      .error (.invalidInput "empty group")
    ∧ (tryFromNode parse (.mk (some (.group j [])))).isOk = false := by
  constructor
  · simp [tryFromNode]
  · simp [tryFromNode, Except.isOk, Except.toBool]

/-- Claim C2: building a Group specification with exactly one child, under
either joiner, yields exactly the result of building that child directly:
no Group wrapper is introduced and the declared joiner is discarded. -/
theorem c2_singleton_group_collapses
    (parse : String → Except AnkiError (List Node)) (j : PBJoiner)
    (c : PBSearchNode) :
    tryFromNode parse (.mk (some (.group j [c]))) = tryFromNode parse c := by
  simp [tryFromNode]

/-- Claim C6: the flag-filter mapping is the fixed table: "none" builds to
`Leaf(Flag(0))`, "any" builds to `Negation(Leaf(Flag(0)))`, and the colored
flags red, orange, green, blue build to `Leaf(Flag(1..4))`. -/
theorem c6_flag_mapping (parse : String → Except AnkiError (List Node)) :
    tryFromNode parse (.mk (some (.flag .none))) = .ok (.search (.flag 0))
    ∧ tryFromNode parse (.mk (some (.flag .any))) =
        .ok (.not (.search (.flag 0)))
    ∧ tryFromNode parse (.mk (some (.flag .red))) = .ok (.search (.flag 1))
    ∧ tryFromNode parse (.mk (some (.flag .orange))) = .ok (.search (.flag 2))
    ∧ tryFromNode parse (.mk (some (.flag .green))) = .ok (.search (.flag 3))
    ∧ tryFromNode parse (.mk (some (.flag .blue))) = .ok (.search (.flag 4)) := by
  refine ⟨?_, ?_, ?_, ?_, ?_, ?_⟩ <;> simp [tryFromNode]

/-- Claim C8: in find-and-replace, a literal (non-regex) pattern is
regex-escaped before use, and when matchCase is false the inline
case-insensitive marker is prefixed onto the already-escaped pattern; a
regex pattern is passed through without escaping. -/
theorem c8_find_and_replace_pattern (regexEscape : String → String)
    (s : String) :
    findAndReplacePattern regexEscape false false s = "(?i)" ++ regexEscape s
    ∧ findAndReplacePattern regexEscape false true s = regexEscape s
    ∧ findAndReplacePattern regexEscape true false s = "(?i)" ++ s
    ∧ findAndReplacePattern regexEscape true true s = s :=
  ⟨rfl, rfl, rfl, rfl⟩

/-- Claim C9: sort-specification resolution is total (it is a function) and
never fails: an absent specification resolves to FromConfig, each present
variant resolves by the table to exactly one of NoOrder, FromConfig,
Custom(text) or Builtin(kind, reverse), and the kind table is one-to-one
(the full 13-entry enumeration maps to pairwise-distinct kinds). -/
theorem c9_sort_mode_resolution (s : String) (k : SortKindProto) (r : Bool) :
    sortModeFromProto Option.none = SortMode.fromConfig
    ∧ sortModeFromProto (some SortOrderProto.none) = SortMode.noOrder
    ∧ sortModeFromProto (some (SortOrderProto.custom s)) = SortMode.custom s
    ∧ sortModeFromProto (some SortOrderProto.fromConfig) = SortMode.fromConfig
    ∧ sortModeFromProto (some (SortOrderProto.builtin k r)) =
        SortMode.builtin (sortKindFromProto k) r
    ∧ (allSortKindProto.map sortKindFromProto).Nodup := by
  refine ⟨rfl, rfl, rfl, rfl, rfl, ?_⟩
  decide

/-- Claim C10: building a Template filter truncates the supplied ordinal to
16 bits: for every input ordinal u the built predicate carries u mod 65536,
so ordinals of 65536 or more silently wrap (65536 wraps to 0, 65537 to 1)
rather than fail. -/
theorem c10_template_ordinal_truncation
    (parse : String → Except AnkiError (List Node)) (u : Nat) :
    tryFromNode parse (.mk (some (.template u))) =
      .ok (.search (.cardTemplate (.ordinal (u % 65536))))
    ∧ tryFromNode parse (.mk (some (.template 65536))) =
        .ok (.search (.cardTemplate (.ordinal 0)))
    ∧ tryFromNode parse (.mk (some (.template 65537))) =
        .ok (.search (.cardTemplate (.ordinal 1))) := by
  refine ⟨?_, ?_, ?_⟩ <;> simp [tryFromNode]

/-- Claim C3: for a Group specification with n ≥ 2 children that all build
successfully, the builder produces a Group whose sequence is the n built
child trees in caller order with exactly one operator token of the declared
joiner between each consecutive pair: the sequence is the interspersion,
its length is 2n-1, the children sit at the even indices in order, and the
joiner token sits at every odd index. -/
theorem c3_group_intersperse
    (parse : String → Except AnkiError (List Node)) (j : PBJoiner)
    (ns : List PBSearchNode) (ts : List Node)
    (hlen : 2 ≤ ns.length)
    (hok : tryFromList parse ns = .ok ts) :
    tryFromNode parse (.mk (some (.group j ns))) =
      .ok (Node.group (ts.intersperse (joinerNode j)))
    ∧ ts.length = ns.length
    ∧ (ts.intersperse (joinerNode j)).length = 2 * ns.length - 1
    ∧ (∀ i, i < ts.length → (ts.intersperse (joinerNode j))[2 * i]? = ts[i]?)
    ∧ (∀ i, i + 1 < ts.length →
        (ts.intersperse (joinerNode j))[2 * i + 1]? = some (joinerNode j)) := by
  have hts := tryFromList_length parse ns ts hok
  obtain ⟨a, b, rest, rfl⟩ : ∃ a b rest, ns = a :: b :: rest := by
    cases ns with
    | nil => simp at hlen
    | cons a t =>
      cases t with
      | nil => simp at hlen
      | cons b rest => exact ⟨a, b, rest, rfl⟩
  refine ⟨?_, hts, ?_, ?_, ?_⟩
  · simp only [tryFromNode, hok]
  · rw [length_intersperse, hts]
  · intro i hi
    exact getElem?_intersperse_even _ ts i hi
  · intro i hi
    exact getElem?_intersperse_odd _ ts i hi

/-- Witness for C3: a two-child AND group of two AddedInDays filters builds
to a Group with the joiner token interspersed between the two children. -/
theorem c3_group_intersperse_witness :
    2 ≤ ([PBSearchNode.mk (some (.addedInDays 1)),
          PBSearchNode.mk (some (.addedInDays 2))]).length
    ∧ tryFromList noParse
        [.mk (some (.addedInDays 1)), .mk (some (.addedInDays 2))] =
      .ok [.search (.addedInDays 1), .search (.addedInDays 2)]
    ∧ tryFromNode noParse (.mk (some (.group .and
        [.mk (some (.addedInDays 1)), .mk (some (.addedInDays 2))]))) =
      .ok (Node.group
        [.search (.addedInDays 1), Node.and, .search (.addedInDays 2)]) := by
  have hok : tryFromList noParse
      [.mk (some (.addedInDays 1)), .mk (some (.addedInDays 2))] =
      .ok [.search (.addedInDays 1), .search (.addedInDays 2)] := by
    simp [tryFromList, tryFromNode]
  refine ⟨by simp, hok, ?_⟩
  have h := (c3_group_intersperse noParse .and
    [.mk (some (.addedInDays 1)), .mk (some (.addedInDays 2))]
    [.search (.addedInDays 1), .search (.addedInDays 2)] (by simp) hok).1
  simpa [List.intersperse, joinerNode] using h

/-- Claim C4: building Negated(Negated(X)) wraps X's tree in Negation twice
with no simplification, and the doubly-negated tree is structurally
distinct from X's tree. -/
theorem c4_double_negation_no_simplification
    (parse : String → Except AnkiError (List Node)) (x : PBSearchNode)
    (t : Node) (h : tryFromNode parse x = .ok t) :
    tryFromNode parse (.mk (some (.negated (.mk (some (.negated x)))))) =
      .ok (Node.not (Node.not t))
    ∧ Node.not (Node.not t) ≠ t := by
  constructor
  · simp [tryFromNode, h, Node.negated]
  · intro he
    have hs := congrArg sizeOf he
    simp only [Node.not.sizeOf_spec] at hs
    omega

/-- Witness for C4: the doubly-negated AddedInDays(5) specification builds
to a double Negation, which is distinct from the plain tree. -/
theorem c4_double_negation_witness :
    tryFromNode noParse (.mk (some (.addedInDays 5))) =
      .ok (.search (.addedInDays 5))
    ∧ (tryFromNode noParse (.mk (some (.negated
          (.mk (some (.negated (.mk (some (.addedInDays 5))))))))) =
        .ok (Node.not (Node.not (.search (.addedInDays 5))))
      ∧ Node.not (Node.not (Node.search (.addedInDays 5))) ≠
          Node.search (.addedInDays 5)) := by
  have h : tryFromNode noParse (.mk (some (.addedInDays 5))) =
      .ok (.search (.addedInDays 5)) := by
    simp [tryFromNode]
  exact ⟨h, c4_double_negation_no_simplification noParse _ _ h⟩

/-- Claim C5: a Deck pattern of exactly the literal star is kept unescaped;
any other Deck pattern is wildcard-escaped, and the other pattern-bearing
predicates (tag, note type, field name) are always wildcard-escaped. -/
theorem c5_deck_star_unescaped
    (parse : String → Except AnkiError (List Node)) (s : String) :
    tryFromNode parse (.mk (some (.deck "*"))) = .ok (.search (.deck "*"))
    ∧ (s ≠ "*" → tryFromNode parse (.mk (some (.deck s))) =
        .ok (.search (.deck (escape_anki_wildcards s))))
    ∧ tryFromNode parse (.mk (some (.tag s))) =
        .ok (.search (.tag (escape_anki_wildcards s)))
    ∧ tryFromNode parse (.mk (some (.note s))) =
        .ok (.search (.noteType (escape_anki_wildcards s)))
    ∧ tryFromNode parse (.mk (some (.fieldName s))) =
        .ok (.search (.singleField (escape_anki_wildcards s) "*" false)) := by
  refine ⟨?_, ?_, ?_, ?_, ?_⟩
  · simp [tryFromNode]
  · intro hs
    simp [tryFromNode, hs]
  · simp [tryFromNode]
  · simp [tryFromNode]
  · simp [tryFromNode]

/-- Witness for C5: the deck pattern with a star between letters is not the
bare-star literal, builds with escaping applied, and the escaping actually
inserts the escape character. -/
theorem c5_deck_star_witness :
    ("a*b" ≠ "*")
    ∧ tryFromNode noParse (.mk (some (.deck "a*b"))) =
        .ok (.search (.deck (escape_anki_wildcards "a*b")))
    ∧ escape_anki_wildcards "a*b" = "a\\*b" := by
  refine ⟨by decide, ?_, rfl⟩
  exact (c5_deck_star_unescaped noParse "a*b").2.1 (by decide)

/-- Claim C7: in the Replace operation the existing expression is normalized
before scanning: when it built to a single Group node that Group is
unwrapped to its inner operand/operator sequence; otherwise the built node
is treated as a one-element sequence. -/
theorem c7_replace_normalizes_existing
    (parse : String → Except AnkiError (List Node))
    (inp : Option PBSearchNode) (t : Node)
    (h : tryFromNode parse (inp.getD PBSearchNode.default) = .ok t) :
    (∀ ns, t = Node.group ns → replaceSearchNodeExisting parse inp = .ok ns)
    ∧ (t.isGroup = false → replaceSearchNodeExisting parse inp = .ok [t]) := by
  constructor
  · intro ns hns
    subst hns
    simp [replaceSearchNodeExisting, h]
  · intro hng
    cases t with
    | group ns => simp [Node.isGroup] at hng
    | and => simp [replaceSearchNodeExisting, h]
    | or => simp [replaceSearchNodeExisting, h]
    | not n => simp [replaceSearchNodeExisting, h]
    | search s => simp [replaceSearchNodeExisting, h]

/-- Witness for C7: an existing two-child AND group builds to a single Group
node, and the Replace normalization unwraps it to its inner sequence. -/
theorem c7_replace_normalizes_witness :
    tryFromNode noParse ((some (PBSearchNode.mk (some (.group .and
        [.mk (some (.addedInDays 1)),
         .mk (some (.addedInDays 2))])))).getD PBSearchNode.default) =
      .ok (Node.group
        [.search (.addedInDays 1), Node.and, .search (.addedInDays 2)])
    ∧ replaceSearchNodeExisting noParse (some (.mk (some (.group .and
        [.mk (some (.addedInDays 1)), .mk (some (.addedInDays 2))])))) =
      .ok [.search (.addedInDays 1), Node.and, .search (.addedInDays 2)] := by
  have h : tryFromNode noParse ((some (PBSearchNode.mk (some (.group .and
      [.mk (some (.addedInDays 1)),
       .mk (some (.addedInDays 2))])))).getD PBSearchNode.default) =
      .ok (Node.group
        [.search (.addedInDays 1), Node.and, .search (.addedInDays 2)]) := by
    simp [tryFromNode, tryFromList, joinerNode, List.intersperse, Option.getD]
  exact ⟨h, (c7_replace_normalizes_existing noParse _ _ h).1 _ rfl⟩

end AnkiSearch
